import Mathlib

/-!
Verification of the claude_amnesia context-injector hook (ctx.py).

The Python source is shallowly embedded: pure string/list manipulation is
translated to Lean functions on String and List; library effects (the YAML
loader, the SHA-256 digest, the network fetches, the external completion
endpoint) are modelled as explicit oracle inputs; the on-disk state the hook
touches (history file, catalog snapshot, decision-cache directory, the running
script file, the last-check marker) is an explicit state record threaded
through the functions.  Python exceptions are modelled with Except; the
specific exception classes that matter appear as the PyError type.
-/

/-- Exception classes raised by the embedded code paths. -/
inductive PyError
  | valueError
  | attributeError
  | unboundLocalError
deriving DecidableEq, Repr

/-! ## Configuration data model (ctx.py lines 43-101) -/

/-- HistoryConfig (ctx.py lines 43-47) with its pydantic defaults. -/
structure HistoryConfig where
  window_size : Nat := 5
  max_tokens_per_message : Nat := 500
  pattern_analysis_window : Nat := 100
  pattern_refresh_interval : Nat := 3600
deriving Repr

/-- PluginsConfig (ctx.py lines 49-58) with its pydantic defaults. -/
structure PluginsConfig where
  max_selected : Nat := 3
  excerpt_tokens : Nat := 300
  full_content_tokens : Nat := 4000
  directories : List String :=
    [ "~/.claude/plugins/marketplaces/claude-code-workflows/agents"
    , "~/.claude/plugins/marketplaces/claude-code-workflows/workflows"
    , "~/.claude/plugins/marketplaces/claude-code-workflows/tools"
    , "~/.claude/plugins/marketplaces/claude-code-plugins/plugins" ]
deriving Repr

/-- CerebrasConfig (ctx.py lines 60-65) with its pydantic defaults. -/
structure CerebrasConfig where
  model : String := "qwen-3-32b"
  base_url : String := "https://api.cerebras.ai/v1"
  temperature : Float := 0.6
  max_tokens : Nat := 2000
  timeout : Nat := 30
deriving Repr

/-- CacheConfig (ctx.py lines 67-69).  The source declares exactly these two
fields; in particular it declares no ttl_seconds field, although
_get_cached_decision (line 279) reads self.config.cache.ttl_seconds. -/
structure CacheConfig where
  enabled : Bool := false
  directory : String := "~/.amnesia/cache"
deriving Repr, DecidableEq

/-- CatalogConfig (ctx.py lines 71-73) with its pydantic defaults. -/
structure CatalogConfig where
  rebuild_interval_seconds : Nat := 86400
  file_path : String := "~/.amnesia/cache/plugin_catalog.json"
deriving Repr

/-- PatternsConfig (ctx.py lines 75-79) with its pydantic defaults. -/
structure PatternsConfig where
  enabled : Bool := true
  cache_file : String := "~/.amnesia/cache/detected_patterns.json"
  min_occurrences : Nat := 2
  max_patterns : Nat := 10
deriving Repr

/-- DebugConfig (ctx.py lines 81-83) with its pydantic defaults. -/
structure DebugConfig where
  enabled : Bool := true
  log_file : String := "~/.amnesia/trace.log"
deriving Repr

/-- Config (ctx.py lines 85-92): every section defaults, so an all-defaults
object is simply the empty structure instance. -/
structure Config where
  history : HistoryConfig := {}
  plugins : PluginsConfig := {}
  cerebras : CerebrasConfig := {}
  cache : CacheConfig := {}
  catalog : CatalogConfig := {}
  patterns : PatternsConfig := {}
  debug : DebugConfig := {}
deriving Repr

/-- Outcome of the external work done inside Config.from_yaml (ctx.py lines
94-101): opening the file and yaml.safe_load may raise, and
Config.model_validate may either raise a validation error or succeed with a
validated Config value. -/
inductive YamlLoadOutcome
  | ioError
  | parseError
  | validationError
  | validated (c : Config)

/-- Config.from_yaml (ctx.py lines 94-101): the whole body is inside a
try/except Exception which falls back to cls(), the all-defaults object. -/
def Config.from_yaml (outcome : YamlLoadOutcome) : Config :=
  match outcome with
  | .validated c => c
  | .ioError => {}
  | .parseError => {}
  | .validationError => {}

/-! ## ContextInjector construction (ctx.py lines 103-117) -/

/-- The injector object; the only instance state the embedded pipeline
consults is the loaded configuration. -/
structure ContextInjector where
  config : Config

/-- ContextInjector.__init__ (ctx.py lines 104-117).  The environment lookup
of CEREBRAS_API_KEY is the argument (none models an unset variable).  Python
truthiness makes an empty string fall into the ValueError branch as well.
After the key check, the very next statement constructs the OpenAI client
from self.config.cerebras.base_url — but no attribute has been assigned on
self yet (self.config is only assigned at line 114), so reading self.config
raises AttributeError before the constructor can complete.  Consequently the
constructor never returns an object. -/
def contextInjectorInit (envApiKey : Option String) : Except PyError ContextInjector :=
  match envApiKey with
  | none => .error .valueError
  | some k =>
    if k = "" then .error .valueError
    else .error .attributeError

/-! ## Python string primitives

The corresponding core String functions are implemented with well-founded
recursion over byte positions and do not reduce inside the kernel, so the
Python string operations the hook uses are given directly as structural
recursion over the character list. -/

/-- Python str.strip with no argument: remove leading and trailing
whitespace characters. -/
def pyStrip (s : String) : String :=
  String.mk (((s.data.dropWhile Char.isWhitespace).reverse.dropWhile Char.isWhitespace).reverse)

/-- Python str.split with a single-character separator: split at every
occurrence, keeping empty pieces. -/
def splitOnCharAux (c : Char) : List Char → List (List Char)
  | [] => [[]]
  | x :: xs =>
    let r := splitOnCharAux c xs
    if x = c then [] :: r
    else
      match r with
      | [] => [[x]]
      | y :: ys => (x :: y) :: ys

/-- Python content.split on the newline character (ctx.py line 129). -/
def splitLines (s : String) : List String :=
  (splitOnCharAux '\n' s.data).map String.mk

/-- Python str.split(sep, 1) for a single-character separator: the part
before the first occurrence and everything after it; none when the
separator does not occur (the ":" in line test). -/
def breakAtChar (c : Char) : List Char → Option (List Char × List Char)
  | [] => none
  | x :: xs =>
    if x = c then some ([], xs)
    else (breakAtChar c xs).map fun p => (x :: p.1, p.2)

/-- Python s[:n] slicing: the first n characters.  The core String.take
recurses once per counted character through Substring positions, so the
list-based form is used, whose recursion stops at the end of the string. -/
def pyTake (s : String) (n : Nat) : String :=
  String.mk (s.data.take n)

/-- Python sep.join over a list of strings. -/
def joinWith (sep : String) : List String → String
  | [] => ""
  | [x] => x
  | x :: xs => x ++ sep ++ joinWith sep xs

/-! ## Front-matter parsing and excerpt extraction (ctx.py lines 126-184) -/

/-- One pass of the Python test ":" in line followed by line.split(":", 1)
with both halves stripped (ctx.py lines 139-141); none when the line has no
colon. -/
def lineKV (line : String) : Option (String × String) :=
  match breakAtChar ':' line.data with
  | none => none
  | some p => some (pyStrip (String.mk p.1), pyStrip (String.mk p.2))

/-- The dict-update a single front-matter line performs on the accumulated
metadata map (ctx.py lines 138-141). -/
def parseFMLine (acc : String → Option String) (line : String) : String → Option String :=
  match lineKV line with
  | none => acc
  | some kv => fun q => if q = kv.1 then some kv.2 else acc q

/-- The metadata map produced by folding parseFMLine over the front-matter
lines, starting from the empty dict (ctx.py lines 131, 138-141). -/
def parsePairs (ls : List String) : String → Option String :=
  ls.foldl parseFMLine (fun _ => none)

/-- Declarative reading of a single line as a binding for query q. -/
def checkLine (l q : String) : Option String :=
  match lineKV l with
  | none => none
  | some kv => if q = kv.1 then some kv.2 else none

/-- Declarative last-wins lookup: the value bound to q by the last line of
the block that defines q (later lines take priority, matching Python dict
overwrite semantics). -/
def specFMLookup : List String → String → Option String
  | [], _ => none
  | l :: ls, q =>
    match specFMLookup ls q with
    | some v => some v
    | none => checkLine l q

/-- The while-loop at ctx.py lines 134-136: scan for the first line whose
strip equals the closing delimiter; returns the lines before it and, when the
delimiter was found, the lines after it. -/
def splitAtDelim : List String → List String × Option (List String)
  | [] => ([], none)
  | l :: ls =>
    if pyStrip l = "---" then ([], some ls)
    else
      let p := splitAtDelim ls
      (l :: p.1, p.2)

/-- Front-matter extraction (ctx.py lines 131-142) on the line-split content:
returns the metadata map and the remaining body lines.  When the first line
strips to the delimiter, lines[1:end_idx] are parsed as key/value pairs and
the body is lines[end_idx+1:], which is empty when no closing delimiter
exists (end_idx runs to len(lines)).  String.splitOn never returns [], so the
empty case is unreachable from the caller. -/
def extractFrontmatter (lines : List String) : (String → Option String) × List String :=
  match lines with
  | [] => (fun _ => none, [])
  | l0 :: ls =>
    if pyStrip l0 = "---" then
      match splitAtDelim ls with
      | (before, some body) => (parsePairs before, body)
      | (before, none) => (parsePairs before, [])
    else (fun _ => none, l0 :: ls)

/-- The excerpt accumulation loop (ctx.py lines 148-161): strip each line,
skip empties, append the line (all three content branches append), add its
length to the running count and stop after the line that pushes the count
past max_chars. -/
def excerptLoop (maxChars : Nat) : List String → Nat → List String
  | [], _ => []
  | l :: ls, cnt =>
    let t := pyStrip l
    if t = "" then excerptLoop maxChars ls cnt
    else if cnt + t.length > maxChars then [t]
    else t :: excerptLoop maxChars ls (cnt + t.length)

/-- The joined excerpt capped to 50 lines (ctx.py line 163). -/
def buildExcerpt (lines : List String) (maxChars : Nat) : String :=
  joinWith "\n" ((excerptLoop maxChars lines 0).take 50)

/-- pathlib stem: the final path component without its last dotted suffix. -/
def stemOf (fname : String) : String :=
  match (splitOnCharAux '.' fname.data).map String.mk with
  | [] => fname
  | [s] => s
  | parts => joinWith "." parts.dropLast

/-- Category classification (ctx.py lines 165-174): four successive
non-exclusive if statements reassigning the type variable, so a later match
overwrites an earlier one. -/
def classifyType (parts : List String) : String :=
  let t := "unknown"
  let t := if parts.contains "commands" then "command" else t
  let t := if parts.contains "agents" then "agent" else t
  let t := if parts.contains "workflows" then "workflow" else t
  if parts.contains "tools" then "tool" else t

/-- Classification as the claim words it: the first marker in the fixed
order commands, agents, workflows, tools that appears among the path
segments wins. -/
def classifyTypeSpecFirstMatch (parts : List String) : String :=
  if parts.contains "commands" then "command"
  else if parts.contains "agents" then "agent"
  else if parts.contains "workflows" then "workflow"
  else if parts.contains "tools" then "tool"
  else "unknown"

/-- Classification as the amended claim words it: the last marker in the
order commands, agents, workflows, tools that appears among the path
segments wins, i.e. the first match in the reversed order tools, workflows,
agents, commands. -/
def classifyTypeSpecLastMatch (parts : List String) : String :=
  if parts.contains "tools" then "tool"
  else if parts.contains "workflows" then "workflow"
  else if parts.contains "agents" then "agent"
  else if parts.contains "commands" then "command"
  else "unknown"

/-- The dict emitted for one plugin file (ctx.py lines 175-181). -/
structure CatalogEntry where
  name : String
  description : String
  excerpt : String
  path : String
  type : String
deriving Repr, DecidableEq

/-- ContextInjector._extract_plugin_excerpt (ctx.py lines 126-184) for a file
that was read successfully, on its path components and text content: parse
the leading front-matter block, build the capped excerpt of the body, clip it
to max_chars, and classify the category from the path segments. -/
def extractPluginExcerpt (parts : List String) (content : String) (maxTokens : Nat) :
    CatalogEntry :=
  let fmBody := extractFrontmatter (splitLines content)
  let maxChars := maxTokens * 4
  let fname := parts.getLast?.getD ""
  { name := (fmBody.1 "name").getD (stemOf fname)
  , description := (fmBody.1 "description").getD ""
  , excerpt := pyTake (buildExcerpt fmBody.2 maxChars) maxChars
  , path := joinWith "/" parts
  , type := classifyType parts }

/-! ## History extraction (ctx.py lines 222-262) -/

/-- One line of the history.jsonl file as json.loads sees it: either a decode
failure or a decoded entry carrying its optional timestamp and the display
field defaulted to the empty string. -/
inductive HistLine
  | malformed
  | entry (timestamp : Option String) (display : String)
deriving Repr, DecidableEq

/-- The message dicts built by both history extractors. -/
structure HistoryMessage where
  timestamp : Option String
  content : String
deriving Repr, DecidableEq

/-- Python negative-slice tail l[-n:] for n > 0. -/
def lastN (n : Nat) (l : List α) : List α :=
  l.drop (l.length - n)

/-- Per-message truncation (ctx.py lines 232-234 and 253-255). -/
def truncMsg (maxTokens : Nat) (s : String) : String :=
  if s.length > maxTokens * 4 then pyTake s (maxTokens * 4) ++ "..." else s

/-- The shared extraction loop of _extract_full_history and
_extract_chat_history (ctx.py lines 222-262): missing file yields [], the
last n lines are decoded in order, malformed lines are skipped, and each
display is truncated under the given token budget. -/
def extractHistoryLines (file : Option (List HistLine)) (n maxTokens : Nat) :
    List HistoryMessage :=
  match file with
  | none => []
  | some ls =>
    (lastN n ls).filterMap fun l =>
      match l with
      | .malformed => none
      | .entry ts d => some ⟨ts, truncMsg maxTokens d⟩

/-! ## Cache manager (ctx.py lines 264-294) and on-disk state -/

/-- ContextInjector._get_cache_key content (ctx.py lines 264-268): the
current message, a newline, then the first 100 characters of each of the
last 3 history messages joined by newlines. -/
def cacheKeyContent (userMessage : String) (history : List HistoryMessage) : String :=
  let historySummary := joinWith "\n" ((lastN 3 history).map fun h => pyTake h.content 100)
  userMessage ++ "\n" ++ historySummary

/-- ContextInjector._get_cache_key (ctx.py lines 264-268).  The hashlib
sha256 hexdigest is the oracle argument; the key is the digest of the
assembled content. -/
def getCacheKey (sha256Hex : String → String) (userMessage : String)
    (history : List HistoryMessage) : String :=
  sha256Hex (cacheKeyContent userMessage history)

/-- The on-disk state the run pipeline and the cache manager touch: the
history.jsonl file (none when absent), the persisted catalog snapshot with
its mtime, the markdown files found under the configured plugin directories
(path components and content of each successfully read file), and the
decision-cache directory as a map from key to stored plugin list and file
mtime. -/
structure FSState where
  history : Option (List HistLine)
  catalog : Option (List CatalogEntry × Nat)
  pluginFiles : List (List String × String)
  decisions : List (String × List String × Nat)
deriving Repr, DecidableEq

/-- Existence test plus read of a decision-cache entry file. -/
def lookupDecision (entries : List (String × List String × Nat)) (key : String) :
    Option (List String × Nat) :=
  (entries.find? fun e => e.1 = key).map (·.2)

/-- ContextInjector._get_cached_decision (ctx.py lines 270-284).  Disabled
cache and missing entry miss as the source does; but when an entry file
exists the source then evaluates self.config.cache.ttl_seconds (line 279),
and CacheConfig (lines 67-69) declares no ttl_seconds field, so pydantic
raises AttributeError before the age comparison, the deletion, or the read
can happen. -/
def getCachedDecision (cfg : CacheConfig) (fs : FSState) (now : Nat) (key : String) :
    Except PyError (Option (List String) × FSState) :=
  if !cfg.enabled then .ok (none, fs)
  else
    match lookupDecision fs.decisions key with
    | none => .ok (none, fs)
    | some _ => .error .attributeError

/-- ContextInjector._save_cached_decision (ctx.py lines 286-294): no-op when
disabled, otherwise overwrite the entry file for the key; the file mtime
becomes the current time. -/
def saveCachedDecision (cfg : CacheConfig) (fs : FSState) (now : Nat) (key : String)
    (plugins : List String) : FSState :=
  if !cfg.enabled then fs
  else { fs with decisions := (key, plugins, now) :: fs.decisions.filter fun e => e.1 ≠ key }

/-! ## Decision engine (ctx.py lines 296-402) -/

/-- Case-insensitive prefix test: pat is given in lowercase and is compared
against the lowered characters of the text. -/
def startsWithCI : List Char → List Char → Bool
  | [], _ => true
  | _ :: _, [] => false
  | p :: ps, c :: cs => (c.toLower = p) && startsWithCI ps cs

/-- Index of the first case-insensitive occurrence of pat. -/
def findCI (pat : List Char) : List Char → Option Nat
  | [] => if startsWithCI pat [] then some 0 else none
  | c :: cs =>
    if startsWithCI pat (c :: cs) then some 0
    else (findCI pat cs).map (· + 1)

/-- The literal opening tag of the regex (lowercased). -/
def ctxOpenPat : List Char := ['<', 'c', 't', 'x', '>']

/-- The literal closing tag of the regex (lowercased). -/
def ctxClosePat : List Char := ['<', '/', 'c', 't', 'x', '>']

/-- The Python regex search for <ctx>(.*?)</ctx> with DOTALL and IGNORECASE
(ctx.py line 392): the match starts at the leftmost case-insensitive
occurrence of the opening tag that is followed by a closing tag, and the
non-greedy group ends at the earliest subsequent closing tag; the group's
characters are returned. -/
def extractCtxInner (cs : List Char) : Option (List Char) :=
  match findCI ctxOpenPat cs with
  | none => none
  | some i =>
    let tail := cs.drop (i + 5)
    match findCI ctxClosePat tail with
    | none => none
    | some j => some (tail.take j)

/-- The claim-side containment test: the text contains a case-insensitive
opening tag at some position and a case-insensitive closing tag starting at
least 5 characters later (the interior may contain any characters, newlines
included). -/
def containsCtxPayload (s : String) : Bool :=
  let cs := s.data
  (List.range cs.length).any fun i =>
    startsWithCI ctxOpenPat (cs.drop i) &&
    (List.range cs.length).any fun d =>
      startsWithCI ctxClosePat (cs.drop (i + 5 + d))

/-- What the external completion call produced, as seen from inside the
try/except of _select_plugins_with_cerebras: the call (or the
response.choices[0] access) raised, or it returned a message whose content
is None or an actual string. -/
inductive CerebrasOutcome
  | raised
  | content (c : Option String)
deriving Repr, DecidableEq

/-- ContextInjector._select_plugins_with_cerebras (ctx.py lines 296-402),
reduced to its observable result: any exception is caught and yields None
(lines 400-402), a None message content yields None (lines 382-384),
otherwise the stripped content is searched for the delimited payload and the
group is returned stripped, or None when the regex finds no match. -/
def selectPluginsWithCerebras (outcome : CerebrasOutcome) : Option String :=
  match outcome with
  | .raised => none
  | .content none => none
  | .content (some mc) =>
    match extractCtxInner (pyStrip mc).data with
    | some inner => some (pyStrip (String.mk inner))
    | none => none

/-! ## Catalog build and the run pipeline (ctx.py lines 186-220, 404-421) -/

/-- ContextInjector._build_plugin_catalog (ctx.py lines 186-206) over the
markdown files found under the configured directories: skip the denylisted
filenames and emit an entry per remaining file.  Files whose read raises are
skipped by the source; the state carries only successfully read files. -/
def buildPluginCatalog (excerptTokens : Nat) (files : List (List String × String)) :
    List CatalogEntry :=
  files.filterMap fun f =>
    let fname := f.1.getLast?.getD ""
    if fname = "README.md" ∨ fname = "CHANGELOG.md" ∨ fname = "LICENSE.md" then none
    else some (extractPluginExcerpt f.1 f.2 excerptTokens)

/-- ContextInjector._get_or_build_catalog (ctx.py lines 208-220): reuse the
persisted snapshot while younger than the rebuild interval, otherwise do a
full rebuild and overwrite the snapshot (its mtime becomes now). -/
def getOrBuildCatalog (cfg : Config) (now : Nat) (fs : FSState) :
    List CatalogEntry × FSState :=
  match fs.catalog with
  | some cat =>
    if now - cat.2 < cfg.catalog.rebuild_interval_seconds then (cat.1, fs)
    else
      let built := buildPluginCatalog cfg.plugins.excerpt_tokens fs.pluginFiles
      (built, { fs with catalog := some (built, now) })
  | none =>
    let built := buildPluginCatalog cfg.plugins.excerpt_tokens fs.pluginFiles
    (built, { fs with catalog := some (built, now) })

/-- ContextInjector.run (ctx.py lines 404-421): extract the two history
windows, load or rebuild the catalog, query the decision engine (the history
excerpts and the catalog are interpolated into the prompt handed to the
external endpoint, whose reply is the cerebras oracle argument), and wrap a
non-empty context in the relevant-context envelope; a None or empty context
yields the empty string.  Returns the printed string and the resulting disk
state. -/
def runInjector (inj : ContextInjector) (fs : FSState) (now : Nat)
    (cerebras : CerebrasOutcome) (userMessage : String) : String × FSState :=
  let cfg := inj.config
  let history := extractHistoryLines fs.history cfg.history.window_size
    cfg.history.max_tokens_per_message
  let fullHistory := extractHistoryLines fs.history cfg.history.pattern_analysis_window 1000
  let r := getOrBuildCatalog cfg now fs
  let context := selectPluginsWithCerebras cerebras
  match context with
  | none => ("", r.2)
  | some c =>
    if c = "" then ("", r.2)
    else ("<relevant-context>\n\n" ++ c ++ "\n\n</relevant-context>\n\n", r.2)

/-! ## UserPromptSubmit handler (ctx.py lines 424-450) -/

/-- get_timestamp_metadata (ctx.py lines 424-427) with the two formatted
clock strings as inputs. -/
def getTimestampMetadata (utcTs localTs : String) : String :=
  "<metadata>\n  <utc_timestamp>" ++ utcTs ++ "</utc_timestamp>\n  <local_timestamp>"
    ++ localTs ++ "</local_timestamp>\n</metadata>"

/-- handle_user_prompt_submit (ctx.py lines 430-450) from the point where the
user message has been recovered from the input (the prompt field of the
parsed JSON, or the raw input when parsing fails).  The output list starts
with the metadata block and a newline; a non-empty message attempts
ContextInjector().run inside a try whose except logs the exception and leaves
the output unchanged; a non-empty context string would be appended. -/
def handleUserPromptSubmit (envApiKey : Option String) (fs : FSState) (now : Nat)
    (cerebras : CerebrasOutcome) (utcTs localTs userMessage : String) : String :=
  let output := [getTimestampMetadata utcTs localTs, "\n"]
  let output :=
    if userMessage = "" then output
    else
      match contextInjectorInit envApiKey with
      | .error _ => output
      | .ok inj =>
        let context := (runInjector inj fs now cerebras userMessage).1
        if context = "" then output else output ++ [context]
  String.join output

/-! ## Self-updater (ctx.py lines 453-529) -/

/-- The running version string (ctx.py line 29). -/
def VERSION : String := "0.1.0"

/-- The update-check interval in seconds (ctx.py line 41). -/
def AUTO_UPDATE_INTERVAL : Nat := 86400

/-- Python lstrip with the single character v. -/
def lstripV (s : String) : String :=
  String.mk (s.data.dropWhile fun c => c = 'v')

/-- The files auto_update touches: the running script and its sibling
temporary file. -/
structure UpdateFS where
  current : String
  temp : Option String
deriving Repr, DecidableEq

/-- Failure injection for the steps of auto_update that call into the
platform: the release-metadata fetch plus JSON decode (ok carries the
tag_name field, already defaulted to the empty string), the payload fetch
(ok carries the downloaded bytes), and the three filesystem calls. -/
structure UpdateEnv where
  metaFetch : Except Unit String
  payloadFetch : Except Unit String
  writeFails : Bool
  chmodFails : Bool
  replaceFails : Bool
deriving Repr

/-- How a call to auto_update terminates: a normal return with a Bool, or an
exception escaping to the caller. -/
inductive UpdateResult
  | ret (b : Bool) (fs : UpdateFS)
  | raised (e : PyError) (fs : UpdateFS)
deriving Repr, DecidableEq

/-- The logger calls auto_update can make, in order of appearance in the
source (lines 469, 475, 489, 495). -/
inductive LogEvent
  | updateAvailable (cur latest : String)
  | downloading (v : String)
  | updated (v : String)
  | updateFailed
deriving Repr, DecidableEq

/-- auto_update (ctx.py lines 453-498).  The version comparison at line 467
gates only the Update-available logger call: whenever the stripped tag is
non-empty the code proceeds to download the payload and replace the running
file, equal version or not.  The except block at lines 493-498 first logs the
failure and then reads the local temp_file, which is only bound at line 481;
for any failure before that point (metadata fetch/decode, payload fetch) the
handler itself raises UnboundLocalError, which escapes to the caller.
Failures after temp_file is bound are absorbed: the temp file is removed when
present and False is returned.  A write_bytes failure is modelled as creating
no temp file.  Returns the termination of the call together with the logger
calls made along the way. -/
def autoUpdate (env : UpdateEnv) (currentVersion : String) (fs : UpdateFS) :
    UpdateResult × List LogEvent :=
  match env.metaFetch with
  | .error _ => (.raised .unboundLocalError fs, [.updateFailed])
  | .ok rawTag =>
    let latestVersion := lstripV rawTag
    let logs := if latestVersion ≠ "" ∧ latestVersion ≠ currentVersion
      then [LogEvent.updateAvailable currentVersion latestVersion] else []
    if latestVersion = "" then (.ret false fs, logs)
    else
      let logs := logs ++ [LogEvent.downloading latestVersion]
      match env.payloadFetch with
      | .error _ => (.raised .unboundLocalError fs, logs ++ [.updateFailed])
      | .ok newContent =>
        if env.writeFails then (.ret false fs, logs ++ [.updateFailed])
        else
          let fs1 := { fs with temp := some newContent }
          if env.chmodFails then (.ret false { fs1 with temp := none }, logs ++ [.updateFailed])
          else if env.replaceFails then
            (.ret false { fs1 with temp := none }, logs ++ [.updateFailed])
          else (.ret true { current := newContent, temp := none },
            logs ++ [LogEvent.updated latestVersion])

/-- handle_session_start (ctx.py lines 500-529): decide from the last-check
marker mtime whether a check is due; when due, call auto_update with the
running version and, after it returns, write the marker with the current
time and emit the notice line when an update happened.  handle_session_start
itself has no try/except, so an exception raised by auto_update propagates
(and the marker is then not written).  Returns the printed output, the
marker state, and the script-file state. -/
def handleSessionStart (env : UpdateEnv) (now : Nat) (lastCheck : Option Nat)
    (fileFS : UpdateFS) : Except PyError (String × Option Nat × UpdateFS) :=
  let shouldCheck :=
    match lastCheck with
    | none => true
    | some t => !(now - t < AUTO_UPDATE_INTERVAL)
  if shouldCheck then
    match (autoUpdate env VERSION fileFS).1 with
    | .raised e _ => .error e
    | .ret updated fs2 =>
      let out := if updated then "[amnesia] Updated to latest version\n" else ""
      .ok (out, some now, fs2)
  else .ok ("", lastCheck, fileFS)

/-! ## Theorems -/

/-- C9: for every configuration-load outcome — missing file, unparsable
file, schema-validation failure, or a successfully validated file — the
loader is total (never raises past itself), returns the all-defaults object
on every failure, returns the validated settings on success, and the
all-defaults object carries the documented default values. -/
theorem c9_config_loader_total_and_defaults :
    (Config.from_yaml .ioError = ({} : Config)
      ∧ Config.from_yaml .parseError = ({} : Config)
      ∧ Config.from_yaml .validationError = ({} : Config)
      ∧ ∀ c : Config, Config.from_yaml (.validated c) = c)
    ∧ (({} : Config).history.window_size = 5
      ∧ ({} : Config).history.max_tokens_per_message = 500
      ∧ ({} : Config).history.pattern_analysis_window = 100
      ∧ ({} : Config).plugins.excerpt_tokens = 300
      ∧ ({} : Config).cache.enabled = false
      ∧ ({} : Config).catalog.rebuild_interval_seconds = 86400
      ∧ ({} : Config).cerebras.timeout = 30) :=
  ⟨⟨rfl, rfl, rfl, fun _ => rfl⟩, rfl, rfl, rfl, rfl, rfl, rfl, rfl⟩

/-- C10: the cache key is the SHA-256 digest of the current message joined
with the first 100 characters of each of the last 3 history messages, so for
any digest function, two invocations with equal current messages whose last-3
history contents agree on their first 100 characters produce the same key,
however the histories differ beyond those prefixes or in earlier entries. -/
theorem c10_cache_key_ignores_distant_history (sha256Hex : String → String)
    (msg : String) (h1 h2 : List HistoryMessage)
    (hpre : (lastN 3 h1).map (fun h => pyTake h.content 100)
          = (lastN 3 h2).map (fun h => pyTake h.content 100)) :
    getCacheKey sha256Hex msg h1 = getCacheKey sha256Hex msg h2 := by
  unfold getCacheKey cacheKeyContent
  rw [hpre]

set_option maxRecDepth 8000 in
/-- Witness for C10: two histories that differ in an early entry and beyond
character 100 of the last entry still produce the same key. -/
theorem c10_cache_key_ignores_distant_history_witness :
    (lastN 3 [(⟨none, "early A"⟩ : HistoryMessage), ⟨none, "aa"⟩, ⟨none, "bb"⟩,
        ⟨none, String.mk (List.replicate 100 'z') ++ "1"⟩]).map (fun h => pyTake h.content 100)
      = (lastN 3 [(⟨none, "early B"⟩ : HistoryMessage), ⟨none, "aa"⟩, ⟨none, "bb"⟩,
        ⟨none, String.mk (List.replicate 100 'z') ++ "2"⟩]).map (fun h => pyTake h.content 100)
    ∧ getCacheKey id "do the thing"
        [⟨none, "early A"⟩, ⟨none, "aa"⟩, ⟨none, "bb"⟩,
          ⟨none, String.mk (List.replicate 100 'z') ++ "1"⟩]
      = getCacheKey id "do the thing"
        [⟨none, "early B"⟩, ⟨none, "aa"⟩, ⟨none, "bb"⟩,
          ⟨none, String.mk (List.replicate 100 'z') ++ "2"⟩] :=
  ⟨by decide, c10_cache_key_ignores_distant_history id "do the thing" _ _ (by decide)⟩

/-- C1: for every environment and every input, constructing a
ContextInjector raises before completing — a ValueError when
CEREBRAS_API_KEY is unset (or empty, which Python truthiness treats the
same), and otherwise an AttributeError from reading self.config before it is
assigned — and handle_user_prompt_submit therefore catches the exception and
returns exactly the timestamp metadata block followed by a newline for every
user message, never containing a relevant-context block. -/
theorem c1_injector_never_constructs_and_output_is_metadata_only :
    ∀ (env : Option String) (fs : FSState) (now : Nat) (cer : CerebrasOutcome)
      (utcTs localTs msg : String),
      contextInjectorInit env = .error (match env with
        | none => PyError.valueError
        | some k => if k = "" then PyError.valueError else PyError.attributeError)
      ∧ handleUserPromptSubmit env fs now cer utcTs localTs msg
          = getTimestampMetadata utcTs localTs ++ "\n" := by
  intro env fs now cer utcTs localTs msg
  constructor
  · cases env with
    | none => rfl
    | some k =>
      by_cases hk : k = ""
      · subst hk; rfl
      · dsimp only [contextInjectorInit]
        rw [if_neg hk, if_neg hk]
  · by_cases hm : msg = ""
    · subst hm; rfl
    · unfold handleUserPromptSubmit
      dsimp only
      rw [if_neg hm]
      cases env with
      | none => rfl
      | some k =>
        by_cases hk : k = ""
        · subst hk; rfl
        · dsimp only [contextInjectorInit]
          rw [if_neg hk]
          rfl

/-- C2 (code bug): with caching enabled, a store immediately followed by a
lookup of the same key does not return the stored selection — the lookup
reaches the self.config.cache.ttl_seconds access and raises AttributeError,
because CacheConfig declares no ttl_seconds field. -/
theorem c2_enabled_cache_lookup_raises_attribute_error :
    getCachedDecision ⟨true, "~/.amnesia/cache"⟩
      (saveCachedDecision ⟨true, "~/.amnesia/cache"⟩ ⟨none, none, [], []⟩ 100 "k" ["pluginA"])
      100 "k"
      = .error .attributeError := rfl

/-- C3 (code bug): when the fetched release tag strips to exactly the
running version string, auto_update still downloads the payload and renames
it over the running file, returning True; the equality gates only the
Update-available log line, which indeed is not emitted. -/
theorem c3_auto_update_replaces_file_when_tag_equals_version :
    lstripV "v0.1.0" = VERSION
    ∧ autoUpdate ⟨.ok "v0.1.0", .ok "NEW PAYLOAD", false, false, false⟩ VERSION
        ⟨"OLD SCRIPT", none⟩
      = (.ret true ⟨"NEW PAYLOAD", none⟩,
          [.downloading "0.1.0", .updated "0.1.0"]) := by
  constructor
  · rfl
  · decide

/-- C4 (code bug): a failure while fetching the release metadata does not
make auto_update return False — its except handler reads the unbound
temp_file local and raises UnboundLocalError, which propagates to
handle_session_start, so the session-start handler aborts without writing
the last-check timestamp. -/
theorem c4_early_update_failure_escapes_and_marker_unwritten :
    (autoUpdate ⟨.error (), .error (), false, false, false⟩ VERSION ⟨"OLD SCRIPT", none⟩).1
      = .raised .unboundLocalError ⟨"OLD SCRIPT", none⟩
    ∧ handleSessionStart ⟨.error (), .error (), false, false, false⟩ 5000000 none
        ⟨"OLD SCRIPT", none⟩
      = .error .unboundLocalError := by
  constructor
  · rfl
  · rfl

/-- C5 counterexample: on a path containing both commands and agents, the
emitted entry's category is agent — the last marker in the fixed order —
whereas the claim's first-match rule demands command. -/
theorem c5_counterexample_first_marker_does_not_win :
    (extractPluginExcerpt ["commands", "agents", "a.md"] "body text" 300).type = "agent"
    ∧ classifyTypeSpecFirstMatch ["commands", "agents", "a.md"] = "command"
    ∧ ("agent" : String) ≠ "command" := by
  refine ⟨rfl, rfl, by decide⟩

/-- C5 (amended): for every file path, the emitted catalog entry's category
is the last marker in the fixed order commands, agents, workflows, tools
that appears among the path's segments — each successive test overwrites an
earlier match — and a path containing none of the markers yields category
unknown. -/
theorem c5_amended_last_marker_wins (parts : List String) (content : String)
    (maxTokens : Nat) :
    (extractPluginExcerpt parts content maxTokens).type = classifyTypeSpecLastMatch parts := by
  have hty : (extractPluginExcerpt parts content maxTokens).type = classifyType parts := rfl
  rw [hty]
  unfold classifyType classifyTypeSpecLastMatch
  cases hc : parts.contains "commands" <;> cases ha : parts.contains "agents" <;>
    cases hw : parts.contains "workflows" <;> cases ht : parts.contains "tools" <;>
      simp [hc, ha, hw, ht]

lemma trim_delim_eq : pyStrip "---" = "---" := by decide

lemma splitAtDelim_no_delim (ls : List String) (h : ∀ l ∈ ls, pyStrip l ≠ "---") :
    splitAtDelim ls = (ls, none) := by
  induction ls with
  | nil => rfl
  | cons l ls ih =>
    unfold splitAtDelim
    rw [if_neg (h l (List.mem_cons_self l ls))]
    rw [ih fun x hx => h x (List.mem_cons_of_mem l hx)]

lemma splitAtDelim_closed (kv rest : List String) (h : ∀ l ∈ kv, pyStrip l ≠ "---") :
    splitAtDelim (kv ++ "---" :: rest) = (kv, some rest) := by
  induction kv with
  | nil =>
    show splitAtDelim ("---" :: rest) = ([], some rest)
    unfold splitAtDelim
    rw [if_pos trim_delim_eq]
  | cons l kv ih =>
    rw [List.cons_append]
    unfold splitAtDelim
    rw [if_neg (h l (List.mem_cons_self l kv))]
    rw [ih fun x hx => h x (List.mem_cons_of_mem l hx)]

lemma parseFMLine_apply (acc : String → Option String) (l q : String) :
    parseFMLine acc l q = match checkLine l q with | some v => some v | none => acc q := by
  unfold parseFMLine checkLine
  cases hkv : lineKV l with
  | none => rfl
  | some kv =>
    dsimp only
    by_cases hq : q = kv.1
    · rw [if_pos hq, if_pos hq]
    · rw [if_neg hq, if_neg hq]

lemma foldl_parseFMLine (ls : List String) (acc : String → Option String) (q : String) :
    (ls.foldl parseFMLine acc) q
      = match specFMLookup ls q with | some v => some v | none => acc q := by
  induction ls generalizing acc with
  | nil => rfl
  | cons l ls ih =>
    rw [List.foldl_cons, ih]
    cases hs : specFMLookup ls q with
    | some v =>
      have hcons : specFMLookup (l :: ls) q = some v := by
        unfold specFMLookup; rw [hs]
      rw [hcons]
    | none =>
      have hcons : specFMLookup (l :: ls) q = checkLine l q := by
        unfold specFMLookup; rw [hs]
      rw [hcons, parseFMLine_apply]

lemma parsePairs_eq_specFMLookup (ls : List String) (q : String) :
    parsePairs ls q = specFMLookup ls q := by
  unfold parsePairs
  rw [foldl_parseFMLine]
  cases specFMLookup ls q <;> rfl

lemma extractFrontmatter_cons (l0 : String) (ls : List String) :
    extractFrontmatter (l0 :: ls)
      = (if pyStrip l0 = "---" then
          match splitAtDelim ls with
          | (before, some body) => (parsePairs before, body)
          | (before, none) => (parsePairs before, [])
        else (fun _ => none, l0 :: ls) : (String → Option String) × List String) := rfl

lemma extractFrontmatter_closed (kv rest : List String) (h : ∀ l ∈ kv, pyStrip l ≠ "---") :
    extractFrontmatter ("---" :: (kv ++ "---" :: rest)) = (parsePairs kv, rest) := by
  rw [extractFrontmatter_cons, if_pos trim_delim_eq, splitAtDelim_closed kv rest h]

lemma extractFrontmatter_unterminated (ls : List String) (h : ∀ l ∈ ls, pyStrip l ≠ "---") :
    extractFrontmatter ("---" :: ls) = (parsePairs ls, []) := by
  rw [extractFrontmatter_cons, if_pos trim_delim_eq, splitAtDelim_no_delim ls h]

lemma extractFrontmatter_no_block (l0 : String) (ls : List String) (h : pyStrip l0 ≠ "---") :
    extractFrontmatter (l0 :: ls) = (fun _ => none, l0 :: ls) := by
  rw [extractFrontmatter_cons, if_neg h]

set_option maxRecDepth 8000 in
/-- C6 counterexample: a file opening with the front-matter delimiter but
having no closing delimiter does not get empty metadata and a whole-file
body — the code parses every remaining colon line into metadata (the entry
name becomes x, not the filename stem a) and leaves an empty body, so the
excerpt is empty. -/
theorem c6_counterexample_unterminated_block :
    (extractPluginExcerpt ["plugins", "a.md"] "---\nname: x\nBody line" 300).name = "x"
    ∧ (extractPluginExcerpt ["plugins", "a.md"] "---\nname: x\nBody line" 300).excerpt = ""
    ∧ (extractFrontmatter (splitLines "---\nname: x\nBody line")).1 "name" = some "x"
    ∧ (extractFrontmatter (splitLines "---\nname: x\nBody line")).2 = [] := by
  refine ⟨?_, ?_, ?_, ?_⟩ <;> decide

/-- C6 (amended): a file beginning with a well-formed front-matter block
yields exactly the key/value pairs of the block's lines (last occurrence
wins, Python dict overwrite) with the lines after the closing delimiter as
body; a file not opening with the delimiter yields empty metadata and the
whole content as body; but a file opening with the delimiter and lacking a
closing delimiter has every remaining colon line parsed into metadata and an
empty body. -/
theorem c6_frontmatter_parsing_amended :
    (∀ (kv rest : List String), (∀ l ∈ kv, pyStrip l ≠ "---") →
      (∀ q, (extractFrontmatter ("---" :: (kv ++ "---" :: rest))).1 q = specFMLookup kv q)
      ∧ (extractFrontmatter ("---" :: (kv ++ "---" :: rest))).2 = rest)
    ∧ (∀ (l0 : String) (ls : List String), pyStrip l0 ≠ "---" →
      (∀ q, (extractFrontmatter (l0 :: ls)).1 q = none)
      ∧ (extractFrontmatter (l0 :: ls)).2 = l0 :: ls)
    ∧ (∀ ls : List String, (∀ l ∈ ls, pyStrip l ≠ "---") →
      (∀ q, (extractFrontmatter ("---" :: ls)).1 q = specFMLookup ls q)
      ∧ (extractFrontmatter ("---" :: ls)).2 = []) := by
  refine ⟨fun kv rest h => ?_, fun l0 ls h => ?_, fun ls h => ?_⟩
  · rw [extractFrontmatter_closed kv rest h]
    exact ⟨fun q => parsePairs_eq_specFMLookup kv q, rfl⟩
  · rw [extractFrontmatter_no_block l0 ls h]
    exact ⟨fun _ => rfl, rfl⟩
  · rw [extractFrontmatter_unterminated ls h]
    exact ⟨fun q => parsePairs_eq_specFMLookup ls q, rfl⟩

/-- Witness for C6: a concrete well-formed block, evaluated through the
amended theorem. -/
theorem c6_frontmatter_parsing_amended_witness :
    (extractFrontmatter ("---" :: (["name: x", "desc: y"] ++ "---" :: ["Body line"]))).1 "name"
      = some "x"
    ∧ (extractFrontmatter ("---" :: (["name: x", "desc: y"] ++ "---" :: ["Body line"]))).2
      = ["Body line"] := by
  have h := c6_frontmatter_parsing_amended.1 ["name: x", "desc: y"] ["Body line"] (by decide)
  exact ⟨(h.1 "name").trans (by decide), h.2⟩

lemma getOrBuildCatalog_decisions (cfg : Config) (now : Nat) (fs : FSState) :
    (getOrBuildCatalog cfg now fs).2.decisions = fs.decisions := by
  rcases fs with ⟨h, c, p, d⟩
  cases c with
  | none => rfl
  | some cat =>
    dsimp only [getOrBuildCatalog]
    split <;> rfl

lemma getOrBuildCatalog_set_decisions (cfg : Config) (now : Nat) (fs : FSState)
    (d : List (String × List String × Nat)) :
    getOrBuildCatalog cfg now { fs with decisions := d }
      = ((getOrBuildCatalog cfg now fs).1,
          { (getOrBuildCatalog cfg now fs).2 with decisions := d }) := by
  rcases fs with ⟨h, c, p, dd⟩
  cases c with
  | none => rfl
  | some cat =>
    dsimp only [getOrBuildCatalog]
    split <;> rfl

/-- C7: the run pipeline never invokes the cache-manager operations — for
every decision-cache state on disk, run leaves the decisions directory
untouched, its printed output is the same whatever the decision-cache
contents, and the external model call is consulted on every invocation (a
successful delimited reply is wrapped and emitted regardless of the cache
state). -/
theorem c7_run_never_touches_decision_cache :
    ∀ (inj : ContextInjector) (fs : FSState) (now : Nat) (cer : CerebrasOutcome)
      (msg : String) (d : List (String × List String × Nat)),
      (runInjector inj fs now cer msg).2.decisions = fs.decisions
      ∧ (runInjector inj { fs with decisions := d } now cer msg).1
          = (runInjector inj fs now cer msg).1
      ∧ (runInjector inj { fs with decisions := d } now
            (.content (some "<ctx>G</ctx>")) msg).1
          = "<relevant-context>\n\nG\n\n</relevant-context>\n\n" := by
  intro inj fs now cer msg d
  refine ⟨?_, ?_, ?_⟩
  · unfold runInjector
    cases hc : selectPluginsWithCerebras cer with
    | none => exact getOrBuildCatalog_decisions _ _ _
    | some c =>
      dsimp only
      split
      · exact getOrBuildCatalog_decisions _ _ _
      · exact getOrBuildCatalog_decisions _ _ _
  · unfold runInjector
    cases hc : selectPluginsWithCerebras cer with
    | none => rfl
    | some c =>
      dsimp only
      split <;> rfl
  · have hs : selectPluginsWithCerebras (.content (some "<ctx>G</ctx>")) = some "G" := by
      decide
    unfold runInjector
    rw [hs]
    rfl

lemma startsWithCI_cons_ne_nil (p : Char) (ps l : List Char)
    (h : startsWithCI (p :: ps) l = true) : l ≠ [] := by
  intro hl
  subst hl
  simp [startsWithCI] at h

lemma findCI_sound (pat : List Char) :
    ∀ (l : List Char) (i : Nat), findCI pat l = some i →
      startsWithCI pat (l.drop i) = true := by
  intro l
  induction l with
  | nil =>
    intro i h
    unfold findCI at h
    split at h
    next hcond =>
      injection h with h'
      subst h'
      simpa using hcond
    next => simp at h
  | cons c cs ih =>
    intro i h
    unfold findCI at h
    split at h
    next hcond =>
      injection h with h'
      subst h'
      simpa using hcond
    next hcond =>
      cases hf : findCI pat cs with
      | none => rw [hf] at h; simp at h
      | some j =>
        rw [hf] at h
        simp only [Option.map_some'] at h
        injection h with h'
        subst h'
        rw [List.drop_succ_cons]
        exact ih j hf

lemma findCI_min (pat : List Char) :
    ∀ (l : List Char) (i : Nat), findCI pat l = some i →
      ∀ k, k < i → startsWithCI pat (l.drop k) = false := by
  intro l
  induction l with
  | nil =>
    intro i h k hk
    unfold findCI at h
    split at h
    next =>
      injection h with h'
      subst h'
      exact absurd hk (Nat.not_lt_zero k)
    next => simp at h
  | cons c cs ih =>
    intro i h k hk
    unfold findCI at h
    split at h
    next =>
      injection h with h'
      subst h'
      exact absurd hk (Nat.not_lt_zero k)
    next hcond =>
      cases hf : findCI pat cs with
      | none => rw [hf] at h; simp at h
      | some j =>
        rw [hf] at h
        simp only [Option.map_some'] at h
        injection h with h'
        subst h'
        cases k with
        | zero => simpa using hcond
        | succ k2 =>
          rw [List.drop_succ_cons]
          exact ih j hf k2 (by omega)

lemma findCI_none_all (pat : List Char) :
    ∀ (l : List Char), findCI pat l = none →
      ∀ k, startsWithCI pat (l.drop k) = false := by
  intro l
  induction l with
  | nil =>
    intro h k
    unfold findCI at h
    split at h
    next => simp at h
    next hcond =>
      rw [List.drop_nil]
      simpa using hcond
  | cons c cs ih =>
    intro h k
    unfold findCI at h
    split at h
    next => simp at h
    next hcond =>
      have hf : findCI pat cs = none := by
        cases hf2 : findCI pat cs with
        | none => rfl
        | some j => rw [hf2] at h; simp at h
      cases k with
      | zero => simpa using hcond
      | succ k2 =>
        rw [List.drop_succ_cons]
        exact ih hf k2

lemma startsWithCI_lt_length (p : Char) (ps : List Char) (l : List Char) (i : Nat)
    (h : startsWithCI (p :: ps) (l.drop i) = true) : i < l.length := by
  by_contra hge
  push_neg at hge
  rw [List.drop_eq_nil_of_le hge] at h
  simp [startsWithCI] at h

lemma containsCtxPayload_iff (s : String) :
    containsCtxPayload s = true ↔
      ∃ i d, startsWithCI ctxOpenPat (s.data.drop i) = true
        ∧ startsWithCI ctxClosePat (s.data.drop (i + 5 + d)) = true := by
  unfold containsCtxPayload
  simp only [List.any_eq_true, List.mem_range, Bool.and_eq_true]
  constructor
  · rintro ⟨i, hi, ho, d, hd, hc⟩
    exact ⟨i, d, ho, hc⟩
  · rintro ⟨i, d, ho, hc⟩
    have hi : i < s.data.length :=
      startsWithCI_lt_length '<' _ _ _ ho
    have hd : i + 5 + d < s.data.length :=
      startsWithCI_lt_length '<' _ _ _ hc
    exact ⟨i, hi, ho, d, by omega, hc⟩

lemma contains_of_extractCtxInner_some (s : String) (inner : List Char)
    (h : extractCtxInner s.data = some inner) : containsCtxPayload s = true := by
  unfold extractCtxInner at h
  cases hfo : findCI ctxOpenPat s.data with
  | none => rw [hfo] at h; simp at h
  | some i0 =>
    rw [hfo] at h
    dsimp only at h
    cases hfc : findCI ctxClosePat (s.data.drop (i0 + 5)) with
    | none => rw [hfc] at h; simp at h
    | some j =>
      have ho := findCI_sound _ _ _ hfo
      have hc := findCI_sound _ _ _ hfc
      rw [List.drop_drop] at hc
      rw [containsCtxPayload_iff]
      exact ⟨i0, j, ho, hc⟩

lemma not_contains_of_extractCtxInner_none (s : String)
    (h : extractCtxInner s.data = none) : containsCtxPayload s = false := by
  by_contra hb
  have ht : containsCtxPayload s = true := by
    cases hcp : containsCtxPayload s with
    | false => exact absurd hcp hb
    | true => rfl
  rw [containsCtxPayload_iff] at ht
  obtain ⟨i, d, ho, hc⟩ := ht
  unfold extractCtxInner at h
  cases hfo : findCI ctxOpenPat s.data with
  | none =>
    have hno := findCI_none_all _ _ hfo i
    rw [ho] at hno
    simp at hno
  | some i0 =>
    rw [hfo] at h
    dsimp only at h
    cases hfc : findCI ctxClosePat (s.data.drop (i0 + 5)) with
    | some j => rw [hfc] at h; simp at h
    | none =>
      have hle : i0 ≤ i := by
        by_contra hlt
        push_neg at hlt
        have hmin := findCI_min _ _ _ hfo i hlt
        rw [ho] at hmin
        simp at hmin
      have hnone := findCI_none_all _ _ hfc (i - i0 + d)
      rw [List.drop_drop] at hnone
      rw [show i0 + 5 + (i - i0 + d) = i + 5 + d by omega] at hnone
      rw [hc] at hnone
      simp at hnone

lemma extractCtxInner_none_of_not_contains (s : String)
    (h : containsCtxPayload s = false) : extractCtxInner s.data = none := by
  cases he : extractCtxInner s.data with
  | none => rfl
  | some inner =>
    rw [contains_of_extractCtxInner_some s inner he] at h
    simp at h

/-- C8: for every decision-engine invocation, a raised call, a None message
content, or a response whose stripped text contains no case-insensitively
delimited ctx payload all return the no-context signal None without raising;
and when the delimiters are present the engine returns the interior of the
leftmost, shortest delimited payload trimmed of surrounding whitespace. -/
theorem c8_decision_engine_failure_contract :
    selectPluginsWithCerebras .raised = none
    ∧ selectPluginsWithCerebras (.content none) = none
    ∧ (∀ mc : String, containsCtxPayload (pyStrip mc) = false →
        selectPluginsWithCerebras (.content (some mc)) = none)
    ∧ (∀ mc : String, containsCtxPayload (pyStrip mc) = true →
        ∃ inner : List Char, extractCtxInner (pyStrip mc).data = some inner
          ∧ selectPluginsWithCerebras (.content (some mc)) = some (pyStrip (String.mk inner))) := by
  refine ⟨rfl, rfl, fun mc h => ?_, fun mc h => ?_⟩
  · unfold selectPluginsWithCerebras
    dsimp only
    rw [extractCtxInner_none_of_not_contains _ h]
  · cases he : extractCtxInner (pyStrip mc).data with
    | none =>
      rw [not_contains_of_extractCtxInner_none _ he] at h
      simp at h
    | some inner =>
      refine ⟨inner, rfl, ?_⟩
      unfold selectPluginsWithCerebras
      dsimp only
      rw [he]

/-- Witness for C8: a tagless reply yields None, and a reply with
case-insensitive delimiters and interior newlines yields the trimmed
interior. -/
theorem c8_decision_engine_failure_contract_witness :
    selectPluginsWithCerebras (.content (some "no tags at all")) = none
    ∧ selectPluginsWithCerebras (.content (some " <CTX>\n hi \n</ctx> tail")) = some "hi" := by
  constructor
  · exact c8_decision_engine_failure_contract.2.2.1 "no tags at all" (by decide)
  · obtain ⟨inner, hin, hres⟩ :=
      c8_decision_engine_failure_contract.2.2.2 " <CTX>\n hi \n</ctx> tail" (by decide)
    have hv : inner = "\n hi \n".data := by
      have hsome : some inner = some ("\n hi \n".data) := by
        rw [← hin]; decide
      injection hsome
    rw [hres, hv]
    decide
